import Mathlib

/-!
Verification of the Labdisc / micro:bit bridge protocol engine.

This file is a shallow embedding, in Lean 4, of the protocol core of the
bridge application: the checksum codec and command builders
(`src/labdisc/protocol.js`), the sensor catalog and conversion formulas
(`src/labdisc/sensors.js`), the wire formatter (`src/bridge/formatter.js`),
the byte-stream packet framer (`src/labdisc/parser.js`), the connection
state machine (`src/labdisc/connection.js`), and the bridge orchestrator
(`src/bridge/bridge.js`).

Machine integers are modelled as `Nat` with explicit `% 256` where the
source truncates into a Uint8Array; JavaScript floating-point values are
modelled as exact rationals, with `Option ℚ` whose `none` stands for the
non-finite results (`NaN`) that the source maps to `null`; JavaScript
`null`/`undefined` results are `Option.none`.  Asynchronous command
sequences run to completion between suspension points, following the
single-threaded cooperative model of the application.
-/

namespace Labdisc

/-! ## Protocol codec (`protocol.js`) -/

/-- Command header (host to Labdisc): 0x47 0x14. -/
def CMD_HEADER : List Nat := [0x47, 0x14]

/-- Response header (Labdisc to host): 0x2E 0x69. -/
def RSP_HEADER : List Nat := [0x2E, 0x69]

def CMD_GET_SENSOR_STATUS : Nat := 0x10
def CMD_START_EXPERIMENT  : Nat := 0x11
def CMD_START_LOGIN       : Nat := 0x22
def CMD_STOP_LOGIN        : Nat := 0x33
def CMD_GET_SENSOR_IDS    : Nat := 0xAA

def RSP_ONLINE_DATA     : Nat := 0x81
def RSP_SENSOR_IDS      : Nat := 0x82
def RSP_DEVICE_STATUS   : Nat := 0x83
def RSP_EXPERIMENT_DATA : Nat := 0x84
def RSP_CONFIG          : Nat := 0x85

/-- Sensors where raw value 0x8000 means "no data". -/
def NO_DATA_0x8000 : List Nat :=
  [2, 4, 6, 14, 15, 16, 17, 21, 23, 25, 26, 30, 31, 40, 41, 42]

/-- Two's complement checksum: `(256 - (sum(bytes) mod 256)) mod 256`. -/
def calcChecksum (bytes : List Nat) : Nat :=
  (256 - bytes.sum % 256) % 256

/-- A packet is valid iff the sum of all its bytes is 0 mod 256
(the source masks with `& 0xFF`, which on the byte values involved is
`% 256`). -/
def verifyChecksum (packet : List Nat) : Bool :=
  packet.sum % 256 == 0

/-- Truncation performed by the `new Uint8Array(bytes)` constructor. -/
def toUint8 (bytes : List Nat) : List Nat :=
  bytes.map (fun b => b % 256)

/-- Build a simple command: header, code, checksum. -/
def buildCommand (code : Nat) : List Nat :=
  let bytes := CMD_HEADER ++ [code]
  toUint8 (bytes ++ [calcChecksum bytes])

/-- Build a command with payload: header, code, payload, checksum. -/
def buildCommandWithPayload (code : Nat) (payload : List Nat) : List Nat :=
  let bytes := CMD_HEADER ++ [code] ++ payload
  toUint8 (bytes ++ [calcChecksum bytes])

/-- Build the StartExperiment (0x11) command with its fixed 13-byte payload. -/
def buildStartExperiment (maskHi maskLo rateIdx countIdx : Nat) : List Nat :=
  buildCommandWithPayload CMD_START_EXPERIMENT
    [maskHi, maskLo, rateIdx, countIdx, 0, 0, 0, 0, 0, 0, 0, 0, 0]

/-! ## Sensor catalog and conversions (`sensors.js`) -/

/-- Linear interpolation between two ranges (helper `mb`). -/
def mb (r rMin rMax vMin vMax : ℚ) : ℚ :=
  (r - rMin) / (rMax - rMin) * (vMax - vMin) + vMin

/-- Signed int16 reinterpretation of a raw uint16. -/
def signed16 (r : ℚ) : ℚ :=
  if r > 32767 then r - 65536 else r

/-- Breakpoint rows of the light sensor table: (rawThreshold, value, slope). -/
def lightRows : List (ℚ × ℚ × ℚ) :=
  [(0, 0, 0.00054), (3714, 2, 0.00215), (7427, 10, 0.00269),
   (11141, 20, 0.02154), (14855, 100, 0.02693), (18568, 200, 0.21542),
   (22282, 1000, 0.26928), (25996, 2000, 2.154), (29709, 10000, 2.693),
   (33423, 20000, 18.849)]

/-- Scan of the light table: advance while `raw` exceeds the next
threshold, then interpolate from the last passed row.  Running off the end
of the rows corresponds to stopping at the 35280 sentinel in the source,
which also interpolates from the last row. -/
def lightScan (raw : ℚ) : List (ℚ × ℚ × ℚ) → (ℚ × ℚ × ℚ) → ℚ
  | [], (t, v, s) => (raw - t) * s + v
  | (t2, v2, s2) :: rest, (t, v, s) =>
      if raw > t2 then lightScan raw rest (t2, v2, s2) else (raw - t) * s + v

/-- Light sensor conversion.  `raw = 0` and `raw = 65535` are the
unpowered/saturated sentinels.  For `raw > 35280` the source's scan runs
past the table and produces `NaN` (undefined-index arithmetic), modelled
as `none`. -/
def convertLight (raw : ℚ) : Option ℚ :=
  if raw = 0 ∨ raw = 65535 then some 0
  else if raw > 35280 then none
  else match lightRows with
    | [] => none
    | r0 :: rest => some (lightScan raw rest r0)

/-- Thermistor rows of the external temperature table, ordered by
decreasing raw value: (rawAtTemp, temperature, slope). -/
def extRows : List (ℚ × ℚ × ℚ) :=
  [(62587, -40, 0.0056201), (61698, -35, 0.0046082), (60613, -30, 0.0038338),
   (59309, -25, 0.0032394), (57765, -20, 0.0027826), (55968, -15, 0.0024331),
   (53913, -10, 0.002168),  (51607, -5, 0.0019704),  (49069, 0, 0.0018274),
   (46333, 5, 0.001731),    (43445, 10, 0.0016739),  (40458, 15, 0.0016514),
   (37430, 20, 0.0016621),  (34422, 25, 0.0017029),  (31486, 30, 0.0017738),
   (28667, 35, 0.0018773),  (26003, 40, 0.0020116),  (23518, 45, 0.0021819),
   (21226, 50, 0.0023894),  (19134, 55, 0.0026435),  (17242, 60, 0.0029314),
   (15537, 65, 0.0032898),  (14017, 70, 0.0036839),  (12659, 75, 0.0041677),
   (11460, 80, 0.0046932),  (10394, 85, 0.0053328),  (9457, 90, 0.0060505),
   (8630, 95, 0.0068394),   (7899, 100, 0.0078301),  (7261, 105, 0.0088086),
   (6693, 110, 0.0101603),  (6201, 115, 0.0114695),  (5765, 120, 0.0128549)]

/-- Scan of the thermistor table: advance while the row's raw value
exceeds `raw`, carrying the previous row; interpolate backward from the
previous row on stop.  Stopping at the very first row corresponds to the
source's negative-index access, which yields `NaN`, modelled as `none`.
Exhausting all rows corresponds to stopping at the 5376 sentinel, which
interpolates from the last row. -/
def extScan (raw : ℚ) : List (ℚ × ℚ × ℚ) → Option (ℚ × ℚ × ℚ) → Option ℚ
  | [], none => none
  | [], some (t, v, s) => some (v + (t - raw) * s)
  | (t, v, s) :: rest, prev =>
      if t > raw then extScan raw rest (some (t, v, s))
      else match prev with
        | none => none
        | some (tp, vp, sp) => some (vp + (tp - raw) * sp)

/-- External temperature conversion.  Note the lower clamp: the source
returns `t[t.length - 4]`, which is the last row's RAW entry 5765, not the
last temperature. -/
def convertExtTemp (raw : ℚ) : Option ℚ :=
  if raw > 62587 then some (-40)
  else if raw < 5376 then some 5765
  else extScan raw extRows none

/-- A decoded GPS coordinate: signed decimal degrees and the formatted
degree-minute-hemisphere string. -/
structure GPSCoord where
  decimal : ℚ
  dms : String
deriving DecidableEq, Repr

/-- Render `minRaw / 1000` with exactly three decimals, as the source's
`toFixed(3)` does on this input domain. -/
def minutesFixed3 (minRaw : Nat) : String :=
  let frac := minRaw % 1000
  let pad := if frac < 10 then "00" else if frac < 100 then "0" else ""
  toString (minRaw / 1000) ++ "." ++ pad ++ toString frac

/-- GPS coordinate decoder: degrees from the first byte, minutes x1000
from the next two, hemisphere from the last (N/E/null positive). -/
def decodeGPSCoord (b0 b1 b2 b3 : Nat) : GPSCoord :=
  let minRaw := b1 * 256 + b2
  let minutes : ℚ := (minRaw : ℚ) / 1000
  let isPositive := b3 = 0x4e ∨ b3 = 0x45 ∨ b3 = 0x00
  let decDeg : ℚ := (b0 : ℚ) + minutes / 60
  let dir := if b3 = 0x4e then "N" else if b3 = 0x53 then "S"
    else if b3 = 0x45 then "E" else if b3 = 0x57 then "W" else "?"
  { decimal := if isPositive then decDeg else -decDeg,
    dms := toString b0 ++ "°" ++ minutesFixed3 minRaw ++ "\x27" ++ dir }

/-- Per-sensor conversion from a raw reading to a physical value.
Sensors absent from the catalog, and the composite GPS entry (id 7, whose
`convert` is `null`), yield `none`; `none` also models a `NaN` result. -/
def sensorConvert (sid : Nat) (r : ℚ) : Option ℚ :=
  if sid = 1 then some (max 0 ((r - 21845) * 458 * 150 / 1000000 / 100))
  else if sid = 2 then some (r / 1000)
  else if sid = 4 then some (mb r 5000 11500 500 1150)
  else if sid = 5 then some (mb r 5157 32657 (-170) 380)
  else if sid = 6 then some (mb r 0 1000 0 100)
  else if sid = 10 then some (r / 10)
  else if sid = 11 then some (r / 10)
  else if sid = 13 then convertExtTemp r
  else if sid = 15 then some (mb r 0 1000 0 100 / 10)
  else if sid = 16 then some (mb r 0 1000 0 100 / 10)
  else if sid = 17 then some (mb r 0 1000 0 100 / 10)
  else if sid = 20 then convertLight r
  else if sid = 21 then some (mb r 540 960 54 96)
  else if sid = 22 then some (if r > 240 then 0 else r)
  else if sid = 23 then some (if r > 240 then 0 else r)
  else if sid = 24 then some (r * 0.00004578754578754579)
  else if sid = 25 then some (mb r 400 10000 0.4 10)
  else if sid = 26 then some (mb r 0 3000 0 300)
  else if sid = 27 then some (mb r 15527 50009 (-5) 5)
  else if sid = 28 then some (mb r 14318 51218 (-1) 1)
  else if sid = 29 then some ((min 56848 (max 12288 r) - 12288) * 224 / 10000 / 10)
  else if sid = 30 then some (signed16 r / 10)
  else if sid = 31 then some (r / 10)
  else if sid = 32 then some (r * 92 / 10000 / 100)
  else if sid = 33 then some (mb r 0 65535 0 3.3)
  else if sid = 34 then some (mb r 15163 50373 (-500) 500)
  else if sid = 36 then some (r * 0.0002442)
  else if sid = 37 then some (r * 0.0002442)
  else if sid = 38 then some (r * 0.0002442)
  else if sid = 39 then some (r * 92 / 10000 / 100)
  else if sid = 40 then some (mb r 0 1400 0 14)
  else if sid = 41 then some (mb r 0 2000 0 20)
  else if sid = 42 then some (signed16 r / 10)
  else if sid = 47 then some (r / 100)
  else if sid = 49 then some ((r - 32768) * 1084 / 10000 / 100)
  else if sid = 50 then some (r * 0.5 / 28558)
  else none

/-- A reading record emitted for one sensor: raw uint16, converted value
(`none` models `null`), the no-data flag, and the extra GPS fields. -/
structure Reading where
  raw : Nat
  value : Option ℚ
  noData : Bool
  lat : Option GPSCoord := none
  lon : Option GPSCoord := none
  vel : Option ℚ := none
  ang : Option ℚ := none
deriving DecidableEq, Repr

/-- Model of `LabdiscParser._convertRaw`: the generic 2-byte decode path.  No-data
when raw is 0xFFFF, or 0x8000 for sensors in the reserved set; otherwise
the catalog conversion is applied, with non-finite results (and sensors
without a conversion) surfacing as `none` — the conversion itself is a
total function, so it cannot throw. -/
def convertRaw (sid raw : Nat) : Reading :=
  let isNoData := raw == 0xFFFF || (raw == 0x8000 && NO_DATA_0x8000.contains sid)
  let value := if isNoData then none else sensorConvert sid (raw : ℚ)
  { raw := raw, value := value, noData := isNoData }

/-! ## Wire formatter (`formatter.js`) -/

/-- One entry of the fixed UART ordering. -/
structure UartEntry where
  id : Nat
  name : String
  factor : ℚ
deriving DecidableEq, Repr

/-- Fixed order of sensors for UART CSV output. -/
def UART_ORDER : List UartEntry :=
  [⟨30, "Temp Amb", 10⟩, ⟨6, "Humedad", 10⟩, ⟨20, "Luz", 1⟩,
   ⟨26, "Presión", 10⟩, ⟨2, "pH", 100⟩, ⟨25, "Distancia", 1000⟩,
   ⟨21, "Sonido", 10⟩, ⟨13, "Temp Ext", 10⟩, ⟨27, "Voltaje", 1000⟩,
   ⟨28, "Corriente", 1000⟩, ⟨33, "Micrófono", 1000⟩,
   ⟨32, "Ext Analog", 1000⟩, ⟨4, "Barómetro", 10⟩]

/-- Sentinel value for "no data" in UART output. -/
def NO_DATA_VALUE : ℤ := -9999

/-- A parsed sample map: sensor id to reading, in JavaScript object key
layout (first-insertion position, last-write value). -/
def lookupVal (values : List (Nat × Reading)) (id : Nat) : Option Reading :=
  (values.find? (fun p => p.1 == id)).map (fun p => p.2)

/-- Semantics of `Math.round`: round half toward positive infinity. -/
def jsRound (q : ℚ) : ℤ := ⌊q + 1/2⌋

/-- Model of `formatForUART`: fixed-order CSV line of scaled integer readings,
with -9999 for absent/no-data/null entries, comma-joined plus newline. -/
def formatForUART (values : List (Nat × Reading)) : String :=
  let parts := UART_ORDER.map (fun e =>
    match lookupVal values e.id with
    | none => NO_DATA_VALUE
    | some d =>
        if d.noData then NO_DATA_VALUE
        else match d.value with
          | none => NO_DATA_VALUE
          | some v => jsRound (v * e.factor))
  String.intercalate "," (parts.map toString) ++ "\n"

/-! ## Packet framer (`parser.js`) -/

/-- Log severities carried by the `_log(type, msg)` callback.  Message
text is not needed by any property; only the tag is modelled. -/
inductive LogK where
  | info | err | warn | rx | txl
deriving DecidableEq, Repr

/-- Decoded device status / ACK packet (0x83). -/
structure StatusRec where
  subType : Nat
  subName : String
  model : Nat
  firmware : String
  active : Bool
  sensorMask : Nat
  rateIdx : Nat
  countIdx : Nat
  date : String
  time : String
  sensorCount : Nat
deriving DecidableEq, Repr

/-- Events emitted by the parser through its callbacks. -/
inductive Ev where
  | ids (l : List Nat)
  | status (s : StatusRec)
  | data (vals : List (Nat × Reading)) (counter : Option Nat) (count : Nat)
  | log (k : LogK)
deriving DecidableEq, Repr

/-- Parser state: accumulation buffer, cached sensor-id ordering, and the
running packet count. -/
structure PState where
  buffer : List Nat
  sensorIds : List Nat
  packetCount : Nat
deriving DecidableEq, Repr

/-- A fresh parser (also the result of `reset()`). -/
def initP : PState := { buffer := [], sensorIds := [], packetCount := 0 }

/-- Scan for the 2-byte response header 0x2E 0x69; returns the index of
its first occurrence. -/
def findHdr : List Nat → Option Nat
  | a :: b :: rest =>
      if a = 0x2E ∧ b = 0x69 then some 0
      else (findHdr (b :: rest)).map (· + 1)
  | _ => none

/-- Model of `_getPacketLength`: fixed lengths for 0x82/0x83; declared-length byte
at offset 3 for the variable types; `none` for unknown types. -/
def getPacketLength (type : Nat) (buf : List Nat) : Option Nat :=
  if type = RSP_SENSOR_IDS then some 21
  else if type = RSP_DEVICE_STATUS then some 33
  else if type = RSP_ONLINE_DATA ∨ type = RSP_EXPERIMENT_DATA ∨ type = RSP_CONFIG then
    if buf.length ≥ 4 then some (buf.getD 3 0) else none
  else none

/-- Hex digits of a byte as the source's `toString(16).padStart(2,'0')`. -/
def hexPad2 (b : Nat) : String :=
  let s := String.mk (Nat.toDigits 16 b)
  if b < 16 then "0" ++ s else s

/-- The `STATUS_SUB` lookup table. -/
def statusSubName (sub : Nat) : Option String :=
  if sub = 0x10 then some "GetStatus"
  else if sub = 0x11 then some "ExperimentACK"
  else if sub = 0x22 then some "StartLoginACK"
  else if sub = 0x33 then some "StopLoginACK"
  else none

/-- Decode a 0x83 device-status packet. -/
def parseStatusRec (pkt : List Nat) : StatusRec :=
  let sub := pkt.getD 3 0
  { subType := sub,
    subName := (statusSubName sub).getD ("Sub:0x" ++ String.mk (Nat.toDigits 16 sub)),
    model := pkt.getD 4 0,
    firmware := toString (pkt.getD 5 0) ++ "." ++ hexPad2 (pkt.getD 6 0),
    active := pkt.getD 7 0 == 0x01,
    sensorMask := pkt.getD 9 0 * 256 + pkt.getD 10 0,
    rateIdx := pkt.getD 11 0,
    countIdx := pkt.getD 12 0,
    date := hexPad2 (pkt.getD 13 0) ++ "/" ++ hexPad2 (pkt.getD 14 0) ++ "/20" ++
      hexPad2 (pkt.getD 15 0),
    time := hexPad2 (pkt.getD 16 0) ++ ":" ++ hexPad2 (pkt.getD 17 0) ++ ":" ++
      hexPad2 (pkt.getD 18 0),
    sensorCount := pkt.getD 29 0 }

/-- Insertion into a JavaScript-object-like sample map: overwrite in
place when the key exists, append otherwise. -/
def setVal (m : List (Nat × Reading)) (k : Nat) (v : Reading) : List (Nat × Reading) :=
  if m.any (fun p => p.1 == k) then
    m.map (fun p => if p.1 == k then (k, v) else p)
  else m ++ [(k, v)]

/-- Decoding loop of `_parseOnlineData`: every cached sensor id in order,
GPS taking 8 bytes (lat+lon), every other sensor 2 bytes; stop when the
payload runs out. -/
def onlineLoop (pkt : List Nat) : List Nat → Nat → List (Nat × Reading) →
    List (Nat × Reading)
  | [], _, values => values
  | sid :: rest, offset, values =>
      if sid = 7 then
        if pkt.length < offset + 9 then values
        else
          let lat := decodeGPSCoord (pkt.getD offset 0) (pkt.getD (offset + 1) 0)
            (pkt.getD (offset + 2) 0) (pkt.getD (offset + 3) 0)
          let lon := decodeGPSCoord (pkt.getD (offset + 4) 0) (pkt.getD (offset + 5) 0)
            (pkt.getD (offset + 6) 0) (pkt.getD (offset + 7) 0)
          onlineLoop pkt rest (offset + 8)
            (setVal values 7
              { raw := 0, value := some 0, noData := false, lat := some lat, lon := some lon })
      else
        if pkt.length < offset + 3 then values
        else
          let raw := pkt.getD offset 0 * 256 + pkt.getD (offset + 1) 0
          onlineLoop pkt rest (offset + 2) (setVal values sid (convertRaw sid raw))

/-- Decoding loop of `_parseExperimentData`: only bitmask-active sensors
consume payload bytes; inactive ones are emitted as the no-data sentinel
record; GPS takes the full 12 bytes (lat+lon+vel+ang). -/
def expLoop (pkt : List Nat) (mask : Nat) : List Nat → Nat → Nat →
    List (Nat × Reading) → List (Nat × Reading)
  | [], _, _, values => values
  | sid :: rest, bitIdx, offset, values =>
      if (mask >>> bitIdx) % 2 ≠ 1 then
        expLoop pkt mask rest (bitIdx + 1) offset
          (setVal values sid { raw := 0xFFFF, value := none, noData := true })
      else if sid = 7 then
        if pkt.length < offset + 13 then values
        else
          let lat := decodeGPSCoord (pkt.getD offset 0) (pkt.getD (offset + 1) 0)
            (pkt.getD (offset + 2) 0) (pkt.getD (offset + 3) 0)
          let lon := decodeGPSCoord (pkt.getD (offset + 4) 0) (pkt.getD (offset + 5) 0)
            (pkt.getD (offset + 6) 0) (pkt.getD (offset + 7) 0)
          let vel := pkt.getD (offset + 8) 0 * 256 + pkt.getD (offset + 9) 0
          let ang := pkt.getD (offset + 10) 0 * 256 + pkt.getD (offset + 11) 0
          expLoop pkt mask rest (bitIdx + 1) (offset + 12)
            (setVal values 7
              { raw := 0, value := some 0, noData := false, lat := some lat,
                lon := some lon, vel := some ((vel : ℚ) / 10), ang := some ((ang : ℚ) / 10) })
      else
        if pkt.length < offset + 3 then values
        else
          let raw := pkt.getD offset 0 * 256 + pkt.getD (offset + 1) 0
          expLoop pkt mask rest (bitIdx + 1) (offset + 2) (setVal values sid (convertRaw sid raw))

/-- Model of `_emitData`: periodic summary log, then the data callback.  Operates
on the non-buffer parser fields (cached ids, packet count), which are the
only fields the packet handlers touch. -/
def emitData (ids : List Nat) (cnt : Nat) (values : List (Nat × Reading))
    (counter : Option Nat) : (List Nat × Nat) × List Ev :=
  let logs := if cnt ≤ 3 ∨ cnt % 10 = 0 then [Ev.log .rx] else []
  ((ids, cnt), logs ++ [Ev.data values counter cnt])

/-- Model of `_handlePacket`: dispatch a checksum-valid packet by type.  The
packet bytes were already spliced out of the buffer by the caller. -/
def handlePacket (type : Nat) (pkt : List Nat) (ids : List Nat) (cnt : Nat) :
    (List Nat × Nat) × List Ev :=
  if type = RSP_SENSOR_IDS then
    let newIds := ((pkt.drop 3).take (pkt.length - 4)).filter (fun b => b ≠ 0)
    ((newIds, cnt), [Ev.log .rx, Ev.log .info, Ev.ids newIds])
  else if type = RSP_DEVICE_STATUS then
    ((ids, cnt), [Ev.log .rx, Ev.status (parseStatusRec pkt)])
  else if type = RSP_ONLINE_DATA then
    if ids = [] then ((ids, cnt), [])
    else emitData ids (cnt + 1) (onlineLoop pkt ids 4 []) none
  else if type = RSP_EXPERIMENT_DATA then
    if ids = [] then ((ids, cnt), [])
    else
      let mask := pkt.getD 4 0 * 256 + pkt.getD 5 0
      let counter := pkt.getD 7 0
      emitData ids (cnt + 1) (expLoop pkt mask ids 0 8 []) (some counter)
  else ((ids, cnt), [Ev.log .rx])

/-- The `while` loop of `_processBuffer`.  `fuel` is the number of
remaining iterations allowed by the `safety++ < 50` cap; `bs` is the
post-increment safety value seen inside the body (iteration number). -/
def procLoop : Nat → Nat → PState → PState × List Ev
  | 0, _, st => (st, [])
  | fuel + 1, bs, st =>
      if st.buffer.length < 4 then (st, [])
      else match findHdr st.buffer with
        | none =>
            if st.buffer.length > 200 then
              ({ st with buffer := st.buffer.drop (st.buffer.length - 2) }, [])
            else (st, [])
        | some hdr =>
            let buf := st.buffer.drop hdr
            if buf.length < 4 then ({ st with buffer := buf }, [])
            else match getPacketLength (buf.getD 2 0) buf with
              | none => procLoop fuel (bs + 1) { st with buffer := buf.drop 1 }
              | some len =>
                  if len < 4 ∨ len > 800 then
                    procLoop fuel (bs + 1) { st with buffer := buf.drop 1 }
                  else if buf.length < len then ({ st with buffer := buf }, [])
                  else
                    let pkt := buf.take len
                    let rest := buf.drop len
                    if verifyChecksum pkt then
                      let h := handlePacket (buf.getD 2 0) pkt st.sensorIds st.packetCount
                      let r := procLoop fuel (bs + 1)
                        { buffer := rest, sensorIds := h.1.1, packetCount := h.1.2 }
                      (r.1, h.2 ++ r.2)
                    else
                      let buf2 := pkt.drop 1 ++ rest
                      let buf3 := if bs > 30 then buf2.drop 10 else buf2
                      let r := procLoop fuel (bs + 1) { st with buffer := buf3 }
                      (r.1, Ev.log .warn :: r.2)

/-- Model of `_processBuffer`: run the loop with the 50-iteration safety cap. -/
def processBuffer (st : PState) : PState × List Ev :=
  procLoop 50 1 st

/-- Model of `feed(bytes)`: append the chunk to the buffer and process. -/
def feed (bytes : List Nat) (st : PState) : PState × List Ev :=
  processBuffer { st with buffer := st.buffer ++ bytes }

/-- Feed a sequence of chunks, accumulating the emitted events. -/
def feedMany (chunks : List (List Nat)) (st : PState) : PState × List Ev :=
  chunks.foldl (fun acc c =>
    let r := feed c acc.1
    (r.1, acc.2 ++ r.2)) (st, [])

/-- Feed a byte stream one byte per `feed` call. -/
def feedOnes (bytes : List Nat) (st : PState) : PState × List Ev :=
  feedMany (bytes.map (fun b => [b])) st

/-! ## Connection state machine (`connection.js`, newer revision) -/

/-- Connection states of the Labdisc session. -/
inductive ConnState where
  | disconnected | connecting | connected | streaming
deriving DecidableEq, Repr

/-- Session state of `LabdiscConnection`: connection state, stored stream
mode, the owned parser, last device status, and whether the serial port
handle is open. -/
structure LCState where
  state : ConnState
  streamMode : String
  parser : PState
  deviceStatus : Option StatusRec
  port : Bool
deriving DecidableEq, Repr

/-- Observable outputs of a session operation: transmitted packets and
state transitions, in program order. -/
inductive LCOut where
  | tx (bytes : List Nat)
  | stCh (s : ConnState)
deriving DecidableEq, Repr

/-- Model of `_sendRaw`: write the packet when the port is open and the session is
connected; otherwise silently skip (the transport itself is ideal in this
model, so the catch branch is unreachable). -/
def lcSendRaw (c : LCState) (pkt : List Nat) : LCState × List LCOut × List LogK :=
  if c.port = false ∨ c.state = ConnState.disconnected then (c, [], [])
  else (c, [LCOut.tx pkt], [LogK.txl])

/-- Model of `_setState`: record the transition when the state actually changes. -/
def lcSetState (c : LCState) (s : ConnState) : LCState × List LCOut :=
  if c.state = s then (c, []) else ({ c with state := s }, [LCOut.stCh s])

/-- Modelled from the spec: the helper `buildMaskForRate`, imported by
`connection.js` from `sensors.js`, is missing from the available source
revision of `sensors.js`.  Per the spec, fast mode uses "a reduced
bitmask containing only sensors whose native maximum rate supports the
faster rate index (a sensor-capability lookup keyed by id)", with GPS
(id 7) rate-limited to 1 Hz and hence excluded; the spec warns not to
guess further thresholds, so every other sensor is taken to support the
fast rate. -/
def sensorMaxRate (id : Nat) : Nat := if id = 7 then 1 else 25

/-- Modelled from the spec: bitmask over the cached id ordering with bit
`i` set iff sensor `ids[i]` supports the requested rate. -/
def buildMaskForRate (ids : List Nat) (rate : Nat) : Nat :=
  (List.range ids.length).foldl
    (fun m i => if rate ≤ sensorMaxRate (ids.getD i 0) then m ||| (1 <<< i) else m) 0

/-- Model of `startNormal`: guard, set mode, reject on empty sensor list, then full
handshake (stop, get-ids, get-status), configure-experiment at 1 Hz with
all sensors, start-login, and enter Streaming. -/
def lcStartNormal (c : LCState) : LCState × List LCOut × List LogK :=
  if c.state = ConnState.disconnected ∨ c.state = ConnState.streaming then (c, [], [])
  else
    let c := { c with streamMode := "normal" }
    let ids := c.parser.sensorIds
    if ids = [] then (c, [], [LogK.err])
    else
      let mask := 2 ^ ids.length - 1
      let maskHi := (mask >>> 8) % 256
      let maskLo := mask % 256
      let s1 := lcSendRaw c (buildCommand CMD_STOP_LOGIN)
      let s2 := lcSendRaw s1.1 (buildCommand CMD_GET_SENSOR_IDS)
      let s3 := lcSendRaw s2.1 (buildCommand CMD_GET_SENSOR_STATUS)
      let s4 := lcSendRaw s3.1 (buildStartExperiment maskHi maskLo 0x02 0x03)
      let s5 := lcSendRaw s4.1 (buildCommand CMD_START_LOGIN)
      let s6 := lcSetState s5.1 ConnState.streaming
      ({ s6.1 with parser := { s6.1.parser with packetCount := 0 } },
       s1.2.1 ++ s2.2.1 ++ s3.2.1 ++ s4.2.1 ++ s5.2.1 ++ s6.2,
       LogK.info :: (s1.2.2 ++ s2.2.2 ++ s3.2.2 ++ s4.2.2 ++ s5.2.2))

/-- Model of `startFast`: like `startNormal` but with the reduced rate mask, the
exclusion log, and the fast rate index 0x03. -/
def lcStartFast (c : LCState) : LCState × List LCOut × List LogK :=
  if c.state = ConnState.disconnected ∨ c.state = ConnState.streaming then (c, [], [])
  else
    let c := { c with streamMode := "fast" }
    let ids := c.parser.sensorIds
    if ids = [] then (c, [], [LogK.err])
    else
      let mask := buildMaskForRate ids 10
      let maskHi := (mask >>> 8) % 256
      let maskLo := mask % 256
      let excluded := (List.range ids.length).filter (fun i => (mask >>> i) % 2 ≠ 1)
      let exLogs := if excluded = [] then ([] : List LogK) else [LogK.info]
      let s1 := lcSendRaw c (buildCommand CMD_STOP_LOGIN)
      let s2 := lcSendRaw s1.1 (buildCommand CMD_GET_SENSOR_IDS)
      let s3 := lcSendRaw s2.1 (buildCommand CMD_GET_SENSOR_STATUS)
      let s4 := lcSendRaw s3.1 (buildStartExperiment maskHi maskLo 0x03 0x03)
      let s5 := lcSendRaw s4.1 (buildCommand CMD_START_LOGIN)
      let s6 := lcSetState s5.1 ConnState.streaming
      ({ s6.1 with parser := { s6.1.parser with packetCount := 0 } },
       s1.2.1 ++ s2.2.1 ++ s3.2.1 ++ s4.2.1 ++ s5.2.1 ++ s6.2,
       exLogs ++ LogK.info :: (s1.2.2 ++ s2.2.2 ++ s3.2.2 ++ s4.2.2 ++ s5.2.2))

/-- Model of `stopStreaming`: when streaming, send stop-login and go back to
Connected. -/
def lcStopStreaming (c : LCState) : LCState × List LCOut × List LogK :=
  if c.state ≠ ConnState.streaming then (c, [], [])
  else
    let s1 := lcSendRaw c (buildCommand CMD_STOP_LOGIN)
    let s2 := lcSetState s1.1 ConnState.connected
    (s2.1, s1.2.1 ++ s2.2, s1.2.2)

/-! ## Bridge orchestrator (`bridge.js`, newer revision)

The orchestrator re-enters `_checkAutoStream` from the state-change
callbacks wired to both devices, so its operations are defined together
as one fuel-indexed transition function; the fuel bounds the nesting
depth of synchronous callbacks (unbounded in the source, but every nested
invocation in reach of the modelled operations is a guarded no-op). -/

/-- BLE connection states of the micro:bit side. -/
inductive BleSt where
  | disconnected | connecting | connected
deriving DecidableEq, Repr

/-- Orchestrator state: the owned Labdisc session, the Beacon connection
state, the auto-start flag, selected mode, and the sent-line counter. -/
structure BState where
  lab : LCState
  micro : BleSt
  autoStarted : Bool
  mode : String
  uartSentCount : Nat
deriving DecidableEq, Repr

/-- The orchestrator-level operations, dispatched by tag. -/
inductive BOp where
  | check | startStream | stopStream | startNorm | startFst
  | setLab (s : ConnState) | manualStart | manualStop
deriving DecidableEq, Repr

/-- One fuel-indexed interpreter for the orchestrator's mutually
re-entrant operations.  `.setLab s` models `LabdiscConnection._setState`
with the bridge's `onStateChange` callback attached (log, then
`_checkAutoStream`); the start/stop operations inline the session logic of
`connection.js` exactly as in the pure `lc` functions above, but route
every state change through the callback. -/
def bridgeRun : Nat → BOp → BState → BState × List LCOut × List LogK
  | 0, _, b => (b, [], [])
  | f + 1, op, b =>
    match op with
    | BOp.check =>
        let labReady := b.lab.state = ConnState.connected
        let microReady := b.micro = BleSt.connected
        let streaming := b.lab.state = ConnState.streaming
        let r1 :=
          if labReady ∧ microReady ∧ ¬streaming ∧ b.lab.parser.sensorIds ≠ [] then
            let r := bridgeRun f BOp.startStream { b with autoStarted := true }
            (r.1, r.2.1, LogK.info :: r.2.2)
          else (b, [], [])
        let r2 :=
          if ¬microReady ∧ streaming ∧ r1.1.autoStarted then
            let r := bridgeRun f BOp.stopStream { r1.1 with autoStarted := false }
            (r.1, r.2.1, LogK.info :: r.2.2)
          else (r1.1, [], [])
        (r2.1, r1.2.1 ++ r2.2.1, r1.2.2 ++ r2.2.2)
    | BOp.startStream =>
        let r := bridgeRun f (if b.mode = "fast" then BOp.startFst else BOp.startNorm) b
        ({ r.1 with uartSentCount := 0 }, r.2.1, r.2.2)
    | BOp.startNorm =>
        if b.lab.state = ConnState.disconnected ∨ b.lab.state = ConnState.streaming then
          (b, [], [])
        else
          let b := { b with lab := { b.lab with streamMode := "normal" } }
          let ids := b.lab.parser.sensorIds
          if ids = [] then (b, [], [LogK.err])
          else
            let mask := 2 ^ ids.length - 1
            let s1 := lcSendRaw b.lab (buildCommand CMD_STOP_LOGIN)
            let s2 := lcSendRaw s1.1 (buildCommand CMD_GET_SENSOR_IDS)
            let s3 := lcSendRaw s2.1 (buildCommand CMD_GET_SENSOR_STATUS)
            let s4 := lcSendRaw s3.1
              (buildStartExperiment ((mask >>> 8) % 256) (mask % 256) 0x02 0x03)
            let s5 := lcSendRaw s4.1 (buildCommand CMD_START_LOGIN)
            let r := bridgeRun f (BOp.setLab ConnState.streaming) { b with lab := s5.1 }
            ({ r.1 with lab := { r.1.lab with
                parser := { r.1.lab.parser with packetCount := 0 } } },
             s1.2.1 ++ s2.2.1 ++ s3.2.1 ++ s4.2.1 ++ s5.2.1 ++ r.2.1,
             LogK.info :: (s1.2.2 ++ s2.2.2 ++ s3.2.2 ++ s4.2.2 ++ s5.2.2) ++ r.2.2)
    | BOp.startFst =>
        if b.lab.state = ConnState.disconnected ∨ b.lab.state = ConnState.streaming then
          (b, [], [])
        else
          let b := { b with lab := { b.lab with streamMode := "fast" } }
          let ids := b.lab.parser.sensorIds
          if ids = [] then (b, [], [LogK.err])
          else
            let mask := buildMaskForRate ids 10
            let excluded := (List.range ids.length).filter (fun i => (mask >>> i) % 2 ≠ 1)
            let exLogs := if excluded = [] then ([] : List LogK) else [LogK.info]
            let s1 := lcSendRaw b.lab (buildCommand CMD_STOP_LOGIN)
            let s2 := lcSendRaw s1.1 (buildCommand CMD_GET_SENSOR_IDS)
            let s3 := lcSendRaw s2.1 (buildCommand CMD_GET_SENSOR_STATUS)
            let s4 := lcSendRaw s3.1
              (buildStartExperiment ((mask >>> 8) % 256) (mask % 256) 0x03 0x03)
            let s5 := lcSendRaw s4.1 (buildCommand CMD_START_LOGIN)
            let r := bridgeRun f (BOp.setLab ConnState.streaming) { b with lab := s5.1 }
            ({ r.1 with lab := { r.1.lab with
                parser := { r.1.lab.parser with packetCount := 0 } } },
             s1.2.1 ++ s2.2.1 ++ s3.2.1 ++ s4.2.1 ++ s5.2.1 ++ r.2.1,
             exLogs ++ LogK.info :: (s1.2.2 ++ s2.2.2 ++ s3.2.2 ++ s4.2.2 ++ s5.2.2) ++ r.2.2)
    | BOp.stopStream =>
        if b.lab.state ≠ ConnState.streaming then (b, [], [])
        else
          let s1 := lcSendRaw b.lab (buildCommand CMD_STOP_LOGIN)
          let r := bridgeRun f (BOp.setLab ConnState.connected) { b with lab := s1.1 }
          (r.1, s1.2.1 ++ r.2.1, s1.2.2 ++ r.2.2)
    | BOp.setLab s =>
        if b.lab.state = s then (b, [], [])
        else
          let b1 := { b with lab := { b.lab with state := s } }
          let r := bridgeRun f BOp.check b1
          (r.1, LCOut.stCh s :: r.2.1, LogK.info :: r.2.2)
    | BOp.manualStart =>
        if b.lab.state = ConnState.disconnected ∨ b.lab.state = ConnState.streaming then
          (b, [], [])
        else bridgeRun f BOp.startStream { b with autoStarted := false }
    | BOp.manualStop =>
        if b.lab.state ≠ ConnState.streaming then (b, [], [])
        else bridgeRun f BOp.stopStream { b with autoStarted := false }

/-- The micro:bit `_setState` with the bridge's `onStateChange` callback
attached (log, then `_checkAutoStream`). -/
def microSetState (f : Nat) (b : BState) (s : BleSt) : BState × List LCOut × List LogK :=
  if b.micro = s then (b, [], [])
  else
    let r := bridgeRun f BOp.check { b with micro := s }
    (r.1, r.2.1, LogK.info :: r.2.2)

/-- The `gattserverdisconnected` event handler: log, then force the BLE
state to disconnected (notifying the bridge). -/
def microDisconnectEvt (f : Nat) (b : BState) : BState × List LCOut × List LogK :=
  let r := microSetState f b BleSt.disconnected
  (r.1, r.2.1, LogK.info :: r.2.2)

/-! ## Specification-side definitions and concrete inputs -/

/-- Written from the spec's words (§4.6/§8): the cell emitted for one
fixed-order column — the reading multiplied by the wire factor and
rounded to the nearest integer, or the fixed sentinel -9999 when the
sensor is absent, marked no-data, or unconvertible. -/
def specWireCell (values : List (Nat × Reading)) (id : Nat) (factor : ℚ) : ℤ :=
  match lookupVal values id with
  | none => -9999
  | some d =>
      if d.noData then -9999
      else match d.value with
        | none => -9999
        | some v => jsRound (v * factor)

/-- Written from the spec's words: the fixed (id, wire factor) columns of
§4.6's table, ambient temperature first. -/
def specWireCols : List (Nat × ℚ) :=
  [(30, 10), (6, 10), (20, 1), (26, 10), (2, 100), (25, 1000), (21, 10),
   (13, 10), (27, 1000), (28, 1000), (33, 1000), (32, 1000), (4, 10)]

/-- Written from the spec's words: comma-joined fixed-order cells with a
trailing line terminator. -/
def specWireLine (values : List (Nat × Reading)) : String :=
  String.intercalate ","
    (specWireCols.map (fun c => toString (specWireCell values c.1 c.2))) ++ "\n"

/-- A well-formed wire packet: response header, a known type whose
declared length equals the actual length, sane length bounds, valid
checksum, and byte-valued entries. -/
def WellFormed (p : List Nat) : Prop :=
  4 ≤ p.length ∧ p.length ≤ 800 ∧
  p.getD 0 0 = 0x2E ∧ p.getD 1 0 = 0x69 ∧
  getPacketLength (p.getD 2 0) p = some p.length ∧
  verifyChecksum p = true ∧
  ∀ b ∈ p, b < 256

instance (p : List Nat) : Decidable (WellFormed p) := by
  unfold WellFormed; infer_instance

/-- Reference semantics of a stream of well-formed packets: handle each in
turn on the non-buffer parser fields. -/
def handleSeq : List (List Nat) → List Nat → Nat → (List Nat × Nat) × List Ev
  | [], ids, cnt => ((ids, cnt), [])
  | p :: ps, ids, cnt =>
      let h := handlePacket (p.getD 2 0) p ids cnt
      let r := handleSeq ps h.1.1 h.1.2
      (r.1, h.2 ++ r.2)

/-- A concrete valid sensor-id packet reporting the single sensor id 1. -/
def idsPktW : List Nat := [0x2E, 0x69, 0x82] ++ [1] ++ List.replicate 16 0 ++ [230]

/-- A concrete valid device-status packet (all-zero payload). -/
def statusPktW : List Nat := [0x2E, 0x69, 0x83] ++ List.replicate 29 0 ++ [230]

/-- A concrete valid online-data packet (declared length 41, zero payload). -/
def onlinePktW : List Nat := [0x2E, 0x69, 0x81, 41] ++ List.replicate 36 0 ++ [191]

/-- Fifty junk triples, each of which costs the framer one resync
iteration (header followed by an unknown type byte). -/
def junkW : List Nat := (List.replicate 50 [0x2E, 0x69, 0x00]).flatten

/-- Sample map of the wire-line scenario: ambient temperature 26.3, every
other fixed-order sensor absent. -/
def c4demoW : List (Nat × Reading) :=
  [(30, { raw := 263, value := some (263 / 10), noData := false })]

/-- A connected session with three detected sensors, previously in fast
mode. -/
def lcDemoW : LCState :=
  { state := ConnState.connected, streamMode := "fast",
    parser := { buffer := [], sensorIds := [30, 7, 20], packetCount := 5 },
    deviceStatus := none, port := true }

/-- A connected session whose cached sensor-id list is empty. -/
def lcEmptyW : LCState :=
  { state := ConnState.connected, streamMode := "fast",
    parser := { buffer := [], sensorIds := [], packetCount := 5 },
    deviceStatus := none, port := true }

/-- An orchestrator with an automatically-started active stream and a
connected Beacon. -/
def bAutoW : BState :=
  { lab := { lcDemoW with state := ConnState.streaming }, micro := BleSt.connected,
    autoStarted := true, mode := "normal", uartSentCount := 9 }

/-- The same orchestrator but with a manually-started stream. -/
def bManW : BState := { bAutoW with autoStarted := false }

/-- A concrete online-data packet for the GPS witness: declared length 16,
sensor 30 then the 8 GPS bytes. -/
def c10pktW : List Nat :=
  [0x2E, 0x69, 0x81, 16, 1, 4, 0, 0, 0, 0, 0, 0, 0, 0, 0, 0]

/-- The GPS reading record decoded from the all-zero GPS bytes of
`c10pktW`. -/
def c10recW : Reading :=
  { raw := 0, value := some 0, noData := false,
    lat := some (decodeGPSCoord 0 0 0 0), lon := some (decodeGPSCoord 0 0 0 0) }

/-- The sample map decoded from `c10pktW` with cached ids `[30, 7]`. -/
def c10valsW : List (Nat × Reading) := onlineLoop c10pktW [30, 7] 4 []

/-! ## Theorems -/

theorem sum_map_mod (l : List Nat) :
    (l.map (fun b => b % 256)).sum % 256 = l.sum % 256 := by
  induction l with
  | nil => rfl
  | cons a t ih =>
      simp only [List.map_cons, List.sum_cons]
      omega

theorem verify_build (l : List Nat) :
    verifyChecksum (toUint8 (l ++ [calcChecksum l])) = true := by
  unfold verifyChecksum toUint8 calcChecksum
  simp only [List.map_append, List.sum_append, List.map_cons, List.map_nil,
    List.sum_cons, List.sum_nil, beq_iff_eq]
  have h := sum_map_mod l
  omega

/-- C5: every packet produced by a command builder passes the checksum
check — the sum of all its bytes, the appended checksum included, is
congruent to 0 modulo 256. -/
theorem c5_checksum_round_trip (code : Nat) (payload : List Nat)
    (maskHi maskLo rateIdx countIdx : Nat)
    (hcode : code < 256) (hpl : ∀ b ∈ payload, b < 256)
    (h1 : maskHi < 256) (h2 : maskLo < 256) (h3 : rateIdx < 256) (h4 : countIdx < 256) :
    verifyChecksum (buildCommand code) = true ∧
    verifyChecksum (buildCommandWithPayload code payload) = true ∧
    verifyChecksum (buildStartExperiment maskHi maskLo rateIdx countIdx) = true :=
  ⟨verify_build _, verify_build _, verify_build _⟩

theorem c5_checksum_round_trip_witness :
    verifyChecksum (buildCommand 0x33) = true ∧
    verifyChecksum (buildCommandWithPayload 0x11 [1, 2, 3]) = true ∧
    verifyChecksum (buildStartExperiment 0 7 2 3) = true :=
  c5_checksum_round_trip 0x33 [1, 2, 3] 0 7 2 3 (by decide)
    (by decide) (by decide) (by decide) (by decide) (by decide)

/-- C3: through the generic 2-byte decode path, `noData` is true exactly
for raw 0xFFFF, or raw 0x8000 on a sensor in the reserved-0x8000 set;
ids outside that set convert raw 0x8000 as a normal midpoint value; and
`value` is null exactly when the reading is no-data or the (total, hence
non-throwing) conversion yields a non-finite result. -/
theorem c3_no_data_sentinels (sid raw : Nat) (h : raw < 65536) :
    ((convertRaw sid raw).noData = true ↔
      raw = 0xFFFF ∨ (raw = 0x8000 ∧ sid ∈ NO_DATA_0x8000)) ∧
    ((convertRaw sid raw).noData = true → (convertRaw sid raw).value = none) ∧
    ((convertRaw sid raw).value = none ↔
      (convertRaw sid raw).noData = true ∨ sensorConvert sid (raw : ℚ) = none) ∧
    (sid ∉ NO_DATA_0x8000 →
      (convertRaw sid 0x8000).noData = false ∧
      (convertRaw sid 0x8000).value = sensorConvert sid ((0x8000 : Nat) : ℚ)) ∧
    (convertRaw sid raw).raw = raw := by
  unfold convertRaw
  by_cases hin : sid ∈ NO_DATA_0x8000 <;>
    by_cases hff : raw = 0xFFFF <;>
    by_cases h80 : raw = 0x8000 <;>
    simp_all [List.contains_iff_exists_mem_beq]

theorem c3_no_data_sentinels_witness :
    (convertRaw 2 0x8000).noData = true :=
  ((c3_no_data_sentinels 2 0x8000 (by decide)).1).mpr (Or.inr ⟨rfl, by decide⟩)

/-- C4: for every sample map the wire formatter emits exactly the 13
fixed-order cells — scaled, rounded readings or the -9999 sentinel —
comma-joined with a trailing newline (shown by refinement against the
spec-side `specWireLine`), and the ambient-temperature-only scenario
yields the expected concrete line. -/
theorem c4_wire_line :
    (∀ values, formatForUART values = specWireLine values) ∧
    formatForUART c4demoW =
      "263,-9999,-9999,-9999,-9999,-9999,-9999,-9999,-9999,-9999,-9999,-9999,-9999\n" := by
  constructor
  · intro values; rfl
  · have h263 : jsRound (263 : ℚ) = 263 := by
      have hq : ((263 : ℚ)) + 1 / 2 = 527 / 2 := by norm_num
      rw [jsRound, hq, Int.floor_eq_iff]
      constructor <;> norm_num
    have hparts : UART_ORDER.map (fun e =>
        match lookupVal c4demoW e.id with
        | none => NO_DATA_VALUE
        | some d =>
            if d.noData then NO_DATA_VALUE
            else match d.value with
              | none => NO_DATA_VALUE
              | some v => jsRound (v * e.factor)) =
        [263, -9999, -9999, -9999, -9999, -9999, -9999, -9999, -9999, -9999,
         -9999, -9999, -9999] := by
      simp [UART_ORDER, lookupVal, c4demoW, NO_DATA_VALUE, h263]
    rw [formatForUART, hparts]
    decide

/-- C8: the upper clamp and interior interpolation of the thermistor
table match the claim, but the lower clamp is broken in the code: for any
raw below the 5376 sentinel the source returns `t[t.length - 4]`, which
is the last row's raw entry 5765, not the last temperature 120. -/
theorem c8_ext_temp_lower_clamp_bug :
    convertExtTemp 62588 = some (-40) ∧
    convertExtTemp 62000 = some (-40 + (62587 - 62000) * 0.0056201) ∧
    convertExtTemp 5000 = some 5765 ∧
    (5765 : ℚ) ≠ 120 := by
  refine ⟨?_, ?_, ?_, by norm_num⟩ <;>
    norm_num [convertExtTemp, extScan, extRows]

/-- C9 (amended): starting either mode on a non-streaming connected
session with an empty cached sensor-id list is rejected with an error
log and transmits nothing, leaving the connection state, parser, and
device status unchanged — but the stored stream mode has already been
set to the requested mode when the guard rejects. -/
theorem c9_empty_ids_rejected (c : LCState)
    (h1 : c.state ≠ ConnState.disconnected) (h2 : c.state ≠ ConnState.streaming)
    (h3 : c.parser.sensorIds = []) :
    lcStartNormal c = ({ c with streamMode := "normal" }, [], [LogK.err]) ∧
    lcStartFast c = ({ c with streamMode := "fast" }, [], [LogK.err]) := by
  unfold lcStartNormal lcStartFast
  simp [h1, h2, h3]

theorem c9_empty_ids_rejected_witness :
    lcStartNormal lcEmptyW = ({ lcEmptyW with streamMode := "normal" }, [], [LogK.err]) ∧
    lcStartFast lcEmptyW = ({ lcEmptyW with streamMode := "fast" }, [], [LogK.err]) :=
  c9_empty_ids_rejected lcEmptyW (by decide) (by decide) rfl

/-- C9 counterexample: on a connected session whose stored mode is
"fast" and whose sensor-id list is empty, calling `startNormal` is NOT a
complete no-op — the stored stream mode changes, contradicting the
claim's "state unchanged, including ... the session's stored stream
mode". -/
theorem c9_counterexample :
    (lcStartNormal lcEmptyW).1.streamMode ≠ lcEmptyW.streamMode := by
  decide

/-- C1: starting either mode on a connected, non-streaming session with a
known sensor list transmits exactly stop-login, get-sensor-ids,
get-status, configure-experiment (0x11 with the mode's bitmask, rate
index 0x02/0x03 and count index 0x03), then start-login (0x22), in that
order with no step skipped, and only then enters the Streaming state.
The fast-mode bitmask comes from the spec-modelled `buildMaskForRate`. -/
theorem c1_handshake_order (c : LCState)
    (h1 : c.state ≠ ConnState.disconnected) (h2 : c.state ≠ ConnState.streaming)
    (h3 : c.parser.sensorIds ≠ []) (h4 : c.port = true) :
    ((lcStartNormal c).2.1 =
      [LCOut.tx (buildCommand CMD_STOP_LOGIN),
       LCOut.tx (buildCommand CMD_GET_SENSOR_IDS),
       LCOut.tx (buildCommand CMD_GET_SENSOR_STATUS),
       LCOut.tx (buildStartExperiment
         (((2 ^ c.parser.sensorIds.length - 1) >>> 8) % 256)
         ((2 ^ c.parser.sensorIds.length - 1) % 256) 0x02 0x03),
       LCOut.tx (buildCommand CMD_START_LOGIN),
       LCOut.stCh ConnState.streaming] ∧
     (lcStartNormal c).1.state = ConnState.streaming) ∧
    ((lcStartFast c).2.1 =
      [LCOut.tx (buildCommand CMD_STOP_LOGIN),
       LCOut.tx (buildCommand CMD_GET_SENSOR_IDS),
       LCOut.tx (buildCommand CMD_GET_SENSOR_STATUS),
       LCOut.tx (buildStartExperiment
         ((buildMaskForRate c.parser.sensorIds 10 >>> 8) % 256)
         (buildMaskForRate c.parser.sensorIds 10 % 256) 0x03 0x03),
       LCOut.tx (buildCommand CMD_START_LOGIN),
       LCOut.stCh ConnState.streaming] ∧
     (lcStartFast c).1.state = ConnState.streaming) := by
  unfold lcStartNormal lcStartFast lcSendRaw lcSetState
  simp [h1, h2, h3, h4]

theorem c1_handshake_order_witness :
    (lcStartNormal lcDemoW).2.1 =
      [LCOut.tx (buildCommand CMD_STOP_LOGIN),
       LCOut.tx (buildCommand CMD_GET_SENSOR_IDS),
       LCOut.tx (buildCommand CMD_GET_SENSOR_STATUS),
       LCOut.tx (buildStartExperiment
         (((2 ^ lcDemoW.parser.sensorIds.length - 1) >>> 8) % 256)
         ((2 ^ lcDemoW.parser.sensorIds.length - 1) % 256) 0x02 0x03),
       LCOut.tx (buildCommand CMD_START_LOGIN),
       LCOut.stCh ConnState.streaming] ∧
    (lcStartNormal lcDemoW).1.state = ConnState.streaming :=
  (c1_handshake_order lcDemoW (by decide) (by decide) (by decide) rfl).1

/-- C2: when the Beacon disconnects during an active stream, the
orchestrator stops the Logger's stream (stop-login transmitted, session
back to Connected, auto flag cleared) exactly when the stream was started
automatically; a manually-started stream is left untouched — the
orchestrator state changes only in the recorded Beacon connection state
and nothing is transmitted. -/
theorem c2_auto_stop_vs_manual (f : Nat) (bA bB : BState)
    (hA1 : bA.lab.state = ConnState.streaming) (hA2 : bA.micro = BleSt.connected)
    (hA3 : bA.lab.port = true) (hA4 : bA.autoStarted = true)
    (hB1 : bB.lab.state = ConnState.streaming) (hB2 : bB.micro = BleSt.connected)
    (hB3 : bB.autoStarted = false) :
    ((microDisconnectEvt (f + 4) bA).1.lab.state = ConnState.connected ∧
     (microDisconnectEvt (f + 4) bA).2.1 =
       [LCOut.tx (buildCommand CMD_STOP_LOGIN), LCOut.stCh ConnState.connected] ∧
     (microDisconnectEvt (f + 4) bA).1.autoStarted = false) ∧
    ((microDisconnectEvt (f + 4) bB).1 = { bB with micro := BleSt.disconnected } ∧
     (microDisconnectEvt (f + 4) bB).2.1 = []) := by
  unfold microDisconnectEvt microSetState
  constructor
  · simp only [bridgeRun, hA1, hA2, hA3, hA4, lcSendRaw]
    simp [hA1, hA2, hA3, hA4]
  · simp only [bridgeRun, hB1, hB2, hB3]
    simp [hB1, hB2, hB3]

theorem c2_auto_stop_vs_manual_witness :
    ((microDisconnectEvt 4 bAutoW).1.lab.state = ConnState.connected ∧
     (microDisconnectEvt 4 bAutoW).2.1 =
       [LCOut.tx (buildCommand CMD_STOP_LOGIN), LCOut.stCh ConnState.connected] ∧
     (microDisconnectEvt 4 bAutoW).1.autoStarted = false) ∧
    ((microDisconnectEvt 4 bManW).1 = { bManW with micro := BleSt.disconnected } ∧
     (microDisconnectEvt 4 bManW).2.1 = []) :=
  c2_auto_stop_vs_manual 0 bAutoW bManW rfl rfl rfl rfl rfl rfl rfl

theorem mem_setVal {m : List (Nat × Reading)} {k : Nat} {v : Reading}
    {p : Nat × Reading} (h : p ∈ setVal m k v) :
    p = (k, v) ∨ (p ∈ m ∧ p.1 ≠ k) := by
  unfold setVal at h
  by_cases hany : m.any (fun q => q.1 == k)
  · rw [if_pos hany] at h
    obtain ⟨q, hq, hpq⟩ := List.mem_map.mp h
    by_cases hk : q.1 == k
    · left; rw [if_pos hk] at hpq; exact hpq.symm
    · right
      rw [if_neg hk] at hpq
      subst hpq
      exact ⟨hq, by simpa using hk⟩
  · rw [if_neg hany] at h
    rcases List.mem_append.mp h with hm | hs
    · right
      refine ⟨hm, fun hpk => hany ?_⟩
      exact List.any_eq_true.mpr ⟨p, hm, by simpa using hpk⟩
    · left; simpa using hs

theorem onlineLoop_gps (pkt : List Nat) (sids : List Nat) :
    ∀ (offset : Nat) (values : List (Nat × Reading)),
    (∀ r : Reading, (7, r) ∈ values →
      r.raw = 0 ∧ r.value = some 0 ∧ r.noData = false) →
    ∀ r : Reading, (7, r) ∈ onlineLoop pkt sids offset values →
      r.raw = 0 ∧ r.value = some 0 ∧ r.noData = false := by
  induction sids with
  | nil => intro offset values hv r hr; exact hv r hr
  | cons sid rest ih =>
      intro offset values hv r hr
      simp only [onlineLoop] at hr
      by_cases h7 : sid = 7
      · subst h7
        rw [if_pos rfl] at hr
        split at hr
        · exact hv r hr
        · refine ih (offset + 8) _ ?_ r hr
          intro r2 hr2
          rcases mem_setVal hr2 with he | ⟨hm, _⟩
          · cases he; exact ⟨rfl, rfl, rfl⟩
          · exact hv r2 hm
      · rw [if_neg h7] at hr
        split at hr
        · exact hv r hr
        · refine ih (offset + 2) _ ?_ r hr
          intro r2 hr2
          rcases mem_setVal hr2 with he | ⟨hm, _⟩
          · exact absurd (congrArg Prod.fst he) (by simpa using (Ne.symm h7))
          · exact hv r2 hm

theorem expLoop_gps (pkt : List Nat) (mask : Nat) (sids : List Nat) :
    ∀ (bitIdx offset : Nat) (values : List (Nat × Reading)),
    (∀ j, sids.get? j = some 7 → (mask >>> (bitIdx + j)) % 2 = 1) →
    (∀ r : Reading, (7, r) ∈ values →
      r.raw = 0 ∧ r.value = some 0 ∧ r.noData = false) →
    ∀ r : Reading, (7, r) ∈ expLoop pkt mask sids bitIdx offset values →
      r.raw = 0 ∧ r.value = some 0 ∧ r.noData = false := by
  induction sids with
  | nil => intro bitIdx offset values _ hv r hr; exact hv r hr
  | cons sid rest ih =>
      intro bitIdx offset values hbit hv r hr
      simp only [expLoop] at hr
      have hbit0 : sid = 7 → (mask >>> bitIdx) % 2 = 1 := by
        intro h7
        have := hbit 0 (by simp [h7])
        simpa using this
      have hbitR : ∀ j, rest.get? j = some 7 → (mask >>> (bitIdx + 1 + j)) % 2 = 1 := by
        intro j hj
        have := hbit (j + 1) (by simpa using hj)
        have harith : bitIdx + (j + 1) = bitIdx + 1 + j := by omega
        rwa [harith] at this
      by_cases hact : (mask >>> bitIdx) % 2 ≠ 1
      · rw [if_pos hact] at hr
        refine ih (bitIdx + 1) offset _ hbitR ?_ r hr
        intro r2 hr2
        rcases mem_setVal hr2 with he | ⟨hm, _⟩
        · have h7 : sid = 7 := (congrArg Prod.fst he).symm
          exact absurd (hbit0 h7) hact
        · exact hv r2 hm
      · rw [if_neg hact] at hr
        by_cases h7 : sid = 7
        · subst h7
          rw [if_pos rfl] at hr
          split at hr
          · exact hv r hr
          · refine ih (bitIdx + 1) (offset + 12) _ hbitR ?_ r hr
            intro r2 hr2
            rcases mem_setVal hr2 with he | ⟨hm, _⟩
            · cases he; exact ⟨rfl, rfl, rfl⟩
            · exact hv r2 hm
        · rw [if_neg h7] at hr
          split at hr
          · exact hv r hr
          · refine ih (bitIdx + 1) (offset + 2) _ hbitR ?_ r hr
            intro r2 hr2
            rcases mem_setVal hr2 with he | ⟨hm, _⟩
            · exact absurd (congrArg Prod.fst he) (by simpa using (Ne.symm h7))
            · exact hv r2 hm

/-- C10: in every emitted sample event, a GPS (id 7) entry that was
decoded from the payload — always, for online-data events; under an
active mask bit for experiment-data events — carries `noData = false`,
`raw = 0` and `value = 0`: the 0xFFFF/0x8000 sentinels are never applied
to the GPS entry. -/
theorem c10_gps_never_sentinel (type : Nat) (pkt ids : List Nat) (cnt : Nat)
    (vals : List (Nat × Reading)) (ctr : Option Nat) (n : Nat) (r : Reading)
    (hev : Ev.data vals ctr n ∈ (handlePacket type pkt ids cnt).2)
    (hmem : (7, r) ∈ vals)
    (hbit : ∀ c, ctr = some c → ∀ j, ids.get? j = some 7 →
      ((pkt.getD 4 0 * 256 + pkt.getD 5 0) >>> j) % 2 = 1) :
    r.raw = 0 ∧ r.value = some 0 ∧ r.noData = false := by
  unfold handlePacket emitData at hev
  split_ifs at hev <;> simp at hev
  all_goals obtain ⟨hvals, hctr, hn⟩ := hev
  all_goals subst hvals
  all_goals first
    | exact onlineLoop_gps pkt ids 4 []
        (by intro r2 hr2; simp at hr2) r hmem
    | · refine expLoop_gps pkt _ ids 0 8 [] ?_
          (by intro r2 hr2; simp at hr2) r hmem
        intro j hj
        have hctr2 : ctr = some (pkt.getD 7 0) := by
          simpa [List.getD_eq_getElem?_getD] using hctr
        have := hbit (pkt.getD 7 0) hctr2 j hj
        simpa using this

theorem c10_gps_never_sentinel_witness :
    c10recW.raw = 0 ∧ c10recW.value = some 0 ∧ c10recW.noData = false :=
  c10_gps_never_sentinel 0x81 c10pktW [30, 7] 0 c10valsW none 1 c10recW
    (by simp [handlePacket, emitData, c10valsW, RSP_SENSOR_IDS, RSP_DEVICE_STATUS,
      RSP_ONLINE_DATA])
    (by simp [c10valsW, onlineLoop, c10pktW, setVal, c10recW])
    (by intro c hc; exact Option.noConfusion hc)

/-! ### Framer lemmas for the resync and re-feed properties -/

theorem wf_cons {P : List Nat} (hP : WellFormed P) :
    ∃ t, P = 0x2E :: 0x69 :: t := by
  obtain ⟨hl, _, h0, h1, _⟩ := hP
  match P, hl with
  | a :: b :: t, _ =>
      refine ⟨t, ?_⟩
      simp only [List.getD_cons_zero, List.getD_cons_succ] at h0 h1
      rw [h0, h1]

theorem findHdr_head {P : List Nat} (R : List Nat)
    (h0 : P.getD 0 0 = 0x2E) (h1 : P.getD 1 0 = 0x69) (hlen : 2 ≤ P.length) :
    findHdr (P ++ R) = some 0 := by
  match P, hlen with
  | a :: b :: t, _ =>
      simp only [List.getD_cons_zero, List.getD_cons_succ] at h0 h1
      subst h0; subst h1
      simp [findHdr]

theorem findHdr_cons_none {a b : Nat} {t : List Nat}
    (h : findHdr (a :: b :: t) = none) :
    ¬(a = 0x2E ∧ b = 0x69) ∧ findHdr (b :: t) = none := by
  simp only [findHdr] at h
  split at h
  · exact absurd h (by simp)
  · exact ⟨by assumption, Option.map_eq_none.mp h⟩

theorem findHdr_append_none (A : List Nat) {V : List Nat} (R : List Nat)
    (hA : findHdr A = none)
    (hV0 : V.getD 0 0 = 0x2E) (hV1 : V.getD 1 0 = 0x69) (hVlen : 2 ≤ V.length) :
    findHdr (A ++ V ++ R) = some A.length := by
  induction A with
  | nil =>
      simpa using findHdr_head (R := R) hV0 hV1 hVlen
  | cons a A ih =>
      match A with
      | [] =>
          match V, hVlen with
          | x :: y :: t, _ =>
              simp only [List.getD_cons_zero, List.getD_cons_succ] at hV0 hV1
              subst hV0; subst hV1
              simp [findHdr]
      | b :: t =>
          obtain ⟨hne, htail⟩ := findHdr_cons_none hA
          have ihr := ih htail
          simp only [List.cons_append, List.append_eq, findHdr]
          rw [if_neg (by simpa using hne)]
          simp only [List.cons_append, List.append_eq] at ihr
          rw [ihr]
          simp

theorem getPacketLength_agree {P B : List Nat}
    (h2 : B.getD 2 0 = P.getD 2 0) (h3 : B.getD 3 0 = P.getD 3 0)
    (hb4 : 4 ≤ B.length) (hp4 : 4 ≤ P.length)
    (hgpl : getPacketLength (P.getD 2 0) P = some P.length) :
    getPacketLength (B.getD 2 0) B = some P.length := by
  rw [h2]
  unfold getPacketLength at hgpl ⊢
  by_cases hA : P.getD 2 0 = RSP_SENSOR_IDS
  · rw [if_pos hA] at hgpl ⊢; exact hgpl
  · rw [if_neg hA] at hgpl ⊢
    by_cases hB : P.getD 2 0 = RSP_DEVICE_STATUS
    · rw [if_pos hB] at hgpl ⊢; exact hgpl
    · rw [if_neg hB] at hgpl ⊢
      by_cases hC : P.getD 2 0 = RSP_ONLINE_DATA ∨ P.getD 2 0 = RSP_EXPERIMENT_DATA ∨
          P.getD 2 0 = RSP_CONFIG
      · rw [if_pos hC] at hgpl ⊢
        rw [if_pos hp4] at hgpl
        rw [if_pos hb4, h3]
        exact hgpl
      · rw [if_neg hC] at hgpl
        exact absurd hgpl (by simp)

theorem procLoop_small (f bs : Nat) (st : PState) (h : st.buffer.length < 4) :
    procLoop f bs st = (st, []) := by
  cases f with
  | zero => rfl
  | succ f => simp [procLoop, h]

theorem procLoop_parse (f bs : Nat) (st : PState) (A P R : List Nat)
    (hbuf : st.buffer = A ++ P ++ R)
    (hfind : findHdr (A ++ P ++ R) = some A.length)
    (hP : WellFormed P) :
    procLoop (f + 1) bs st =
      (let h := handlePacket (P.getD 2 0) P st.sensorIds st.packetCount
       let r := procLoop f (bs + 1)
         { buffer := R, sensorIds := h.1.1, packetCount := h.1.2 }
       (r.1, h.2 ++ r.2)) := by
  obtain ⟨hl4, hl800, h0, h1, hgpl, hsum, hbytes⟩ := hP
  have hlenbuf : (A ++ P ++ R).length = A.length + P.length + R.length := by
    simp only [List.length_append]
  have hdrop : (A ++ P ++ R).drop A.length = P ++ R := by
    rw [List.append_assoc]; exact List.drop_left _ _
  have hg2 : (P ++ R).getD 2 0 = P.getD 2 0 := List.getD_append _ _ _ _ (by omega)
  have hg3 : (P ++ R).getD 3 0 = P.getD 3 0 := List.getD_append _ _ _ _ (by omega)
  have hgB : getPacketLength ((P ++ R).getD 2 0) (P ++ R) = some P.length :=
    getPacketLength_agree hg2 hg3 (by simp only [List.length_append]; omega) hl4 hgpl
  have htake : (P ++ R).take P.length = P := List.take_left _ _
  have hdrop2 : (P ++ R).drop P.length = R := List.drop_left _ _
  simp only [procLoop, hbuf]
  rw [if_neg (by simp only [hlenbuf]; omega)]
  rw [hfind]
  simp only [hdrop]
  rw [if_neg (by simp only [List.length_append]; omega)]
  rw [hgB]
  simp only
  rw [if_neg (by omega)]
  rw [if_neg (by simp only [List.length_append]; omega)]
  rw [htake, hdrop2, if_pos hsum, hg2]

theorem procLoop_incomplete (f bs : Nat) (st : PState) (Q V P : List Nat)
    (hQV : Q ++ V = P) (hV : V ≠ []) (hP : WellFormed P) (hbuf : st.buffer = Q) :
    procLoop f bs st = (st, []) := by
  obtain ⟨hl4, hl800, h0, h1, hgpl, hsum, hbytes⟩ := hP
  have hVlen : 0 < V.length := List.length_pos.mpr hV
  have hQlen : Q.length < P.length := by
    subst hQV; simp only [List.length_append]; omega
  by_cases hq4 : Q.length < 4
  · exact procLoop_small _ _ _ (by rw [hbuf]; exact hq4)
  · cases f with
    | zero => rfl
    | succ f =>
        have hq0 : Q.getD 0 0 = 0x2E := by
          rw [← h0, ← hQV]; exact (List.getD_append _ _ _ _ (by omega)).symm
        have hq1 : Q.getD 1 0 = 0x69 := by
          rw [← h1, ← hQV]; exact (List.getD_append _ _ _ _ (by omega)).symm
        have hq2 : Q.getD 2 0 = P.getD 2 0 := by
          rw [← hQV]; exact (List.getD_append _ _ _ _ (by omega)).symm
        have hq3 : Q.getD 3 0 = P.getD 3 0 := by
          rw [← hQV]; exact (List.getD_append _ _ _ _ (by omega)).symm
        have hfindQ : findHdr Q = some 0 := by
          have := findHdr_head (P := Q) (R := []) hq0 hq1 (by omega)
          rwa [List.append_nil] at this
        have hgQ : getPacketLength (Q.getD 2 0) Q = some P.length :=
          getPacketLength_agree hq2 hq3 (by omega) hl4 hgpl
        simp only [procLoop, hbuf]
        rw [if_neg (by omega)]
        rw [hfindQ]
        simp only [List.drop_zero]
        rw [if_neg (by omega)]
        rw [hgQ]
        simp only
        rw [if_neg (by omega)]
        rw [if_pos hQlen]
        rw [← hbuf]

theorem procLoop_badsum (f : Nat) (st : PState) (C R : List Nat)
    (hbuf : st.buffer = C ++ R)
    (hfind : findHdr (C ++ R) = some 0)
    (hlen4 : 4 ≤ C.length) (hlen800 : C.length ≤ 800)
    (hgpl : getPacketLength (C.getD 2 0) C = some C.length)
    (hbad : verifyChecksum C = false) :
    procLoop (f + 1) 1 st =
      (let r := procLoop f 2 { st with buffer := C.drop 1 ++ R }
       (r.1, Ev.log .warn :: r.2)) := by
  have hg2 : (C ++ R).getD 2 0 = C.getD 2 0 := List.getD_append _ _ _ _ (by omega)
  have hg3 : (C ++ R).getD 3 0 = C.getD 3 0 := List.getD_append _ _ _ _ (by omega)
  have hgB : getPacketLength ((C ++ R).getD 2 0) (C ++ R) = some C.length :=
    getPacketLength_agree hg2 hg3 (by simp only [List.length_append]; omega) hlen4 hgpl
  have htake : (C ++ R).take C.length = C := List.take_left _ _
  have hdrop2 : (C ++ R).drop C.length = R := List.drop_left _ _
  simp only [procLoop, hbuf]
  rw [if_neg (by simp only [List.length_append]; omega)]
  rw [hfind]
  simp only [List.drop_zero]
  rw [if_neg (by simp only [List.length_append]; omega)]
  rw [hgB]
  simp only
  rw [if_neg (by omega)]
  rw [if_neg (by simp only [List.length_append]; omega)]
  rw [htake, hdrop2, hbad]
  simp only [Bool.false_eq_true, if_false, if_neg (by omega : ¬ (1 : Nat) > 30)]

theorem feedMany_go (cs : List (List Nat)) :
    ∀ (s : PState) (e : List Ev),
    cs.foldl (fun acc c =>
      let r := feed c acc.1
      (r.1, acc.2 ++ r.2)) (s, e) =
      ((feedMany cs s).1, e ++ (feedMany cs s).2) := by
  induction cs with
  | nil => intro s e; simp [feedMany]
  | cons c cs ih =>
      intro s e
      simp only [feedMany, List.foldl_cons]
      rw [ih, ih]
      simp

theorem feedMany_cons (c : List Nat) (cs : List (List Nat)) (s : PState) :
    feedMany (c :: cs) s =
      ((feedMany cs (feed c s).1).1, (feed c s).2 ++ (feedMany cs (feed c s).1).2) := by
  conv_lhs => rw [feedMany]
  simp only [List.foldl_cons]
  rw [feedMany_go]
  simp

theorem feedMany_append (cs ds : List (List Nat)) (s : PState) :
    feedMany (cs ++ ds) s =
      ((feedMany ds (feedMany cs s).1).1,
       (feedMany cs s).2 ++ (feedMany ds (feedMany cs s).1).2) := by
  conv_lhs => rw [feedMany]
  rw [List.foldl_append]
  have h1 : cs.foldl (fun acc c =>
      let r := feed c acc.1
      (r.1, acc.2 ++ r.2)) (s, []) = feedMany cs s := rfl
  rw [h1, feedMany_go]

theorem procLoop_flatten (ps : List (List Nat)) :
    ∀ (f bs : Nat) (st : PState), (∀ p ∈ ps, WellFormed p) →
    st.buffer = ps.flatten → ps.length ≤ f →
    procLoop f bs st =
      (⟨[], (handleSeq ps st.sensorIds st.packetCount).1.1,
        (handleSeq ps st.sensorIds st.packetCount).1.2⟩,
       (handleSeq ps st.sensorIds st.packetCount).2) := by
  induction ps with
  | nil =>
      intro f bs st hws hbuf hf
      obtain ⟨buf, ids, cnt⟩ := st
      simp only [List.flatten_nil] at hbuf
      subst hbuf
      rw [procLoop_small f bs _ (by simp)]
      simp [handleSeq]
  | cons p ps ih =>
      intro f bs st hws hbuf hf
      have hp : WellFormed p := hws p (by simp)
      cases f with
      | zero => simp at hf
      | succ f =>
          have hfl : st.buffer = [] ++ p ++ ps.flatten := by
            simpa [List.flatten_cons] using hbuf
          have hfind : findHdr ([] ++ p ++ ps.flatten) = some ([] : List Nat).length := by
            simpa using findHdr_head (R := ps.flatten) hp.2.2.1 hp.2.2.2.1 (by
              have := hp.1; omega)
          rw [procLoop_parse f bs st [] p ps.flatten hfl hfind hp]
          simp only
          rw [ih f (bs + 1) _ (fun q hq => hws q (by simp [hq])) rfl (by
            simpa using Nat.le_of_succ_le_succ hf)]
          simp [handleSeq]

theorem feed_flatten_eq (ps : List (List Nat)) (st : PState)
    (hws : ∀ p ∈ ps, WellFormed p) (hlen : ps.length ≤ 50) (hbuf : st.buffer = []) :
    feed ps.flatten st =
      (⟨[], (handleSeq ps st.sensorIds st.packetCount).1.1,
        (handleSeq ps st.sensorIds st.packetCount).1.2⟩,
       (handleSeq ps st.sensorIds st.packetCount).2) := by
  unfold feed processBuffer
  exact procLoop_flatten ps 50 1 _ hws (by simp [hbuf]) hlen

theorem feedOnes_packet (P : List Nat) (hP : WellFormed P) :
    ∀ (V Q : List Nat), Q ++ V = P → V ≠ [] → ∀ st : PState, st.buffer = Q →
    feedOnes V st =
      (⟨[], (handlePacket (P.getD 2 0) P st.sensorIds st.packetCount).1.1,
        (handlePacket (P.getD 2 0) P st.sensorIds st.packetCount).1.2⟩,
       (handlePacket (P.getD 2 0) P st.sensorIds st.packetCount).2) := by
  intro V
  induction V with
  | nil => intro Q h hV; exact absurd rfl hV
  | cons b V ih =>
      intro Q hQV hV st hbuf
      have hstep : feed [b] st = processBuffer { st with buffer := Q ++ [b] } := by
        unfold feed
        rw [hbuf]
      by_cases hVe : V = []
      · subst hVe
        have hfull : Q ++ [b] = P := hQV
        have hbufP : ({ st with buffer := Q ++ [b] } : PState).buffer =
            [] ++ P ++ [] := by simp [hfull]
        have hfind : findHdr ([] ++ P ++ []) = some ([] : List Nat).length := by
          simpa using findHdr_head (R := ([] : List Nat)) hP.2.2.1 hP.2.2.2.1 (by
            have := hP.1; omega)
        have hparse := procLoop_parse 49 1 { st with buffer := Q ++ [b] } [] P []
          hbufP hfind hP
        simp only [feedOnes, List.map_cons, List.map_nil]
        rw [feedMany_cons, hstep]
        unfold processBuffer
        rw [hparse]
        simp only
        rw [procLoop_small 49 2 _ (by simp)]
        simp [feedMany]
      · have hpart := procLoop_incomplete 50 1 { st with buffer := Q ++ [b] }
          (Q ++ [b]) V P (by simpa using hQV) hVe hP (by simp)
        simp only [feedOnes, List.map_cons] at ih ⊢
        rw [feedMany_cons, hstep]
        unfold processBuffer
        rw [hpart]
        simp only
        rw [ih (Q ++ [b]) (by simpa using hQV) hVe { st with buffer := Q ++ [b] } rfl]
        simp

theorem feedOnes_append (X Y : List Nat) (st : PState) :
    feedOnes (X ++ Y) st =
      ((feedOnes Y (feedOnes X st).1).1,
       (feedOnes X st).2 ++ (feedOnes Y (feedOnes X st).1).2) := by
  unfold feedOnes
  rw [List.map_append, feedMany_append]

theorem feedOnes_flatten (ps : List (List Nat)) :
    ∀ st : PState, (∀ p ∈ ps, WellFormed p) → st.buffer = [] →
    feedOnes ps.flatten st =
      (⟨[], (handleSeq ps st.sensorIds st.packetCount).1.1,
        (handleSeq ps st.sensorIds st.packetCount).1.2⟩,
       (handleSeq ps st.sensorIds st.packetCount).2) := by
  induction ps with
  | nil =>
      intro st hws hbuf
      obtain ⟨buf, ids, cnt⟩ := st
      simp only at hbuf
      subst hbuf
      simp [feedOnes, feedMany, handleSeq]
  | cons p ps ih =>
      intro st hws hbuf
      have hp : WellFormed p := hws p (by simp)
      have hpne : p ≠ [] := by
        intro h
        have := hp.1
        rw [h] at this
        simp at this
      rw [List.flatten_cons, feedOnes_append]
      rw [feedOnes_packet p hp p [] (by simp) hpne st hbuf]
      rw [ih _ (fun q hq => hws q (by simp [hq])) rfl]
      simp [handleSeq]

/-- C7 (amended): for a total byte stream that is the concatenation of at
most 50 well-formed packets fed to an empty-buffer framer, feeding one
byte at a time and feeding the whole stream in a single call produce the
identical sequence of emitted events (and the identical final state).
The bound is forced by the 50-iteration safety cap of `_processBuffer`,
which defers work past the cap to the next feed call. -/
theorem c7_rechunking_equivalence (ps : List (List Nat)) (st : PState)
    (hws : ∀ p ∈ ps, WellFormed p) (hlen : ps.length ≤ 50) (hbuf : st.buffer = []) :
    feed ps.flatten st = feedOnes ps.flatten st := by
  rw [feed_flatten_eq ps st hws hlen hbuf, feedOnes_flatten ps st hws hbuf]

theorem c7_rechunking_equivalence_witness :
    feed (List.flatten [idsPktW, statusPktW]) initP =
      feedOnes (List.flatten [idsPktW, statusPktW]) initP :=
  c7_rechunking_equivalence [idsPktW, statusPktW] initP (by decide) (by decide) rfl

set_option maxRecDepth 100000 in
/-- C7 counterexample: on the byte stream made of 50 resync-burning junk
triples followed by one valid sensor-id packet, a single bulk `feed` call
exhausts the safety cap and emits nothing, while feeding the same stream
one byte at a time parses the final packet and emits its events — the
claim's unconditional equivalence is false. -/
theorem c7_counterexample :
    (feed (junkW ++ idsPktW) initP).2 ≠ (feedOnes (junkW ++ idsPktW) initP).2 := by
  decide

theorem sum_set_add (l : List Nat) :
    ∀ (i v : Nat), i < l.length → (l.set i v).sum + l.getD i 0 = l.sum + v := by
  induction l with
  | nil => intro i v h; simp at h
  | cons a t ih =>
      intro i v h
      cases i with
      | zero => simp [List.sum_cons]; omega
      | succ i =>
          simp only [List.set_cons_succ, List.sum_cons, List.getD_cons_succ]
          have := ih i v (by simpa using h)
          omega

/-- C6 (amended): corrupting one interior payload byte of a valid packet
— at a position past the header and type bytes, not the declared-length
byte of a variable-length packet, before the checksum, and such that the
corrupted tail contains no spurious response-header pair — and feeding
the corrupted packet immediately followed by any well-formed packet to an
empty-buffer framer emits no event for the corrupted packet, emits
exactly one bad-checksum resync log, and then parses the appended packet
exactly as it would have been parsed on its own. -/
theorem c6_corrupt_resync (P : List Nat) (p v : Nat) (V : List Nat) (st : PState)
    (hP : WellFormed P) (hV : WellFormed V) (hbuf : st.buffer = [])
    (hp3 : 3 ≤ p) (hplen : p + 1 < P.length) (hv : v < 256) (hne : v ≠ P.getD p 0)
    (hfr : P.getD 2 0 = RSP_SENSOR_IDS ∨ P.getD 2 0 = RSP_DEVICE_STATUS ∨ p ≠ 3)
    (hnohdr : findHdr ((P.set p v).drop 1) = none) :
    feed (P.set p v ++ V) st = ((feed V st).1, Ev.log .warn :: (feed V st).2) := by
  obtain ⟨hl4, hl800, h0, h1, hgpl, hsum, hbytes⟩ := hP
  have hClen : (P.set p v).length = P.length := List.length_set P p v
  have hCget : ∀ i, i ≠ p → (P.set p v).getD i 0 = P.getD i 0 := by
    intro i hi
    rw [List.getD_eq_getElem?_getD, List.getD_eq_getElem?_getD,
      List.getElem?_set_ne (by omega)]
  have hC0 : (P.set p v).getD 0 0 = 0x2E := by rw [hCget 0 (by omega)]; exact h0
  have hC1 : (P.set p v).getD 1 0 = 0x69 := by rw [hCget 1 (by omega)]; exact h1
  have hC2 : (P.set p v).getD 2 0 = P.getD 2 0 := hCget 2 (by omega)
  have hgplC : getPacketLength ((P.set p v).getD 2 0) (P.set p v) =
      some (P.set p v).length := by
    rw [hClen]
    rcases hfr with h82 | h83 | hp3ne
    · rw [hC2, h82]
      rw [h82] at hgpl
      unfold getPacketLength at hgpl ⊢
      rw [if_pos rfl] at hgpl ⊢
      exact hgpl
    · rw [hC2, h83]
      rw [h83] at hgpl
      unfold getPacketLength at hgpl ⊢
      have hne82 : RSP_DEVICE_STATUS ≠ RSP_SENSOR_IDS := by decide
      rw [if_neg hne82, if_pos rfl] at hgpl ⊢
      exact hgpl
    · exact getPacketLength_agree hC2 (hCget 3 (Ne.symm (by omega))) (by omega) hl4 hgpl
  have hbadC : verifyChecksum (P.set p v) = false := by
    have hset := sum_set_add P p v (by omega)
    have hmemp : P.getD p 0 ∈ P := by
      rw [List.getD_eq_getElem P 0 (by omega : p < P.length)]
      exact List.getElem_mem _
    have hbp : P.getD p 0 < 256 := hbytes _ hmemp
    unfold verifyChecksum at hsum ⊢
    simp only [beq_iff_eq] at hsum
    simp only [beq_eq_false_iff_ne, ne_eq]
    omega
  have hfindCV : findHdr (P.set p v ++ V) = some 0 :=
    findHdr_head V hC0 hC1 (by omega)
  have hstep1 : feed (P.set p v ++ V) st =
      procLoop 50 1 { st with buffer := P.set p v ++ V } := by
    unfold feed processBuffer
    rw [hbuf, List.nil_append]
  rw [hstep1]
  rw [procLoop_badsum 49 _ (P.set p v) V rfl hfindCV (by omega) (by omega) hgplC hbadC]
  simp only
  have hbuf2 : ({ st with buffer := (P.set p v).drop 1 ++ V } : PState).buffer =
      (P.set p v).drop 1 ++ V ++ [] := by simp
  have hfind2 : findHdr ((P.set p v).drop 1 ++ V ++ []) =
      some ((P.set p v).drop 1).length :=
    findHdr_append_none _ [] hnohdr hV.2.2.1 hV.2.2.2.1 (by have := hV.1; omega)
  rw [procLoop_parse 48 2 _ ((P.set p v).drop 1) V [] hbuf2 hfind2 hV]
  simp only
  rw [procLoop_small 48 3 _ (by simp)]
  have hstepV : feed V st = procLoop 50 1 { st with buffer := V } := by
    unfold feed processBuffer
    rw [hbuf, List.nil_append]
  rw [hstepV]
  have hbufV : ({ st with buffer := V } : PState).buffer = [] ++ V ++ [] := by simp
  have hfindV : findHdr ([] ++ V ++ []) = some ([] : List Nat).length := by
    simpa using findHdr_head (R := ([] : List Nat)) hV.2.2.1 hV.2.2.2.1 (by
      have := hV.1; omega)
  rw [procLoop_parse 49 1 _ [] V [] hbufV hfindV hV]
  simp only
  rw [procLoop_small 49 2 _ (by simp)]

theorem c6_corrupt_resync_witness :
    feed (statusPktW.set 5 9 ++ idsPktW) initP =
      ((feed idsPktW initP).1, Ev.log .warn :: (feed idsPktW initP).2) :=
  c6_corrupt_resync statusPktW 5 9 idsPktW initP (by decide) (by decide) rfl
    (by decide) (by decide) (by decide) (by decide) (Or.inr (Or.inl (by decide)))
    (by decide)

/-- C6 counterexample: `onlinePktW` is a valid packet; corrupting its
interior byte 3 (the declared-length byte) to 200 and feeding it followed
by the valid sensor-id packet emits NOTHING — no recoverable-error log
line, and no event for the appended valid packet (the framer waits for
200 bytes that never arrive) — while the appended packet alone would
emit its sensor-id event.  Both required behaviors of the claim fail. -/
theorem c6_counterexample :
    WellFormed onlinePktW ∧ WellFormed idsPktW ∧
    (feed idsPktW initP).2 = [Ev.log .rx, Ev.log .info, Ev.ids [1]] ∧
    (feed (onlinePktW.set 3 200 ++ idsPktW) initP).2 = [] := by
  refine ⟨by decide, by decide, by decide, by decide⟩

end Labdisc
